import Mathlib

/-!
Verification of the audio-bridging core of `server.js`: the μ-law codec
transcoder, the 8 kHz ↔ 16 kHz rate converter, the inbound media handler
(sample accumulator, barge-in), the outbound playback pacer, the agent
event handler and session teardown.  All definitions are shallow
embeddings of the corresponding JavaScript functions.
-/

/-- Wrap an integer into signed 16-bit range, as storing into an
`Int16Array` does in JavaScript. -/
def toInt16 (z : ℤ) : ℤ := (z + 32768) % 65536 - 32768

/-- `ulawToPcm16(u)` from server.js: `u = ~u & 255`, sign from bit 7,
exponent bits 4–6, mantissa bits 0–3, reconstruction
`((m << 3) + 132) << e` minus `132 << e`. -/
def ulawToPcm16 (u : ℕ) : ℤ :=
  let u2 := (u % 256) ^^^ 255
  let s : ℤ := if u2 &&& 128 ≠ 0 then -1 else 1
  let e := (u2 >>> 4) &&& 7
  let m := u2 &&& 15
  let x : ℤ := (((m <<< 3) + 132) <<< e : ℕ)
  let x2 := x - ((132 <<< e : ℕ) : ℤ)
  s * x2

/-- The descending exponent-search loop of `pcm16ToUlaw`:
`let e = 7; for (i = 7; i > 0; i--) if (x & (8064 << (i-1))) { e = i; break }`.
`ulawExponentLoop x i` examines candidates `i, i-1, …, 1` and returns 7
when none matches (the loop leaves `e` at its initial value). -/
def ulawExponentLoop (x : ℕ) : ℕ → ℕ
  | 0 => 7
  | j + 1 => if x &&& (8064 <<< j) ≠ 0 then j + 1 else ulawExponentLoop x j

/-- The clamped, biased magnitude computed inside `pcm16ToUlaw`:
`x = Math.abs(p); if (x > 32635) x = 32635; x += 132`. -/
def clampBiasedMagnitude (p : ℤ) : ℕ :=
  let x0 := p.natAbs
  (if x0 > 32635 then 32635 else x0) + 132

/-- `pcm16ToUlaw(p)` from server.js. -/
def pcm16ToUlaw (p : ℤ) : ℕ :=
  let s := if p < 0 then 128 else 0
  let x2 := clampBiasedMagnitude p
  let e := ulawExponentLoop x2 7
  let m := (x2 >>> (e + 3)) &&& 15
  (s ||| (e <<< 4) ||| m) ^^^ 255

/-- Spacing between decoder outputs of adjacent mantissa codes in the
segment with exponent field `e`: `ulawToPcm16` reconstructs `m * 2 ^ (e + 3)`,
so the quantization step of segment `e` is `2 ^ (e + 3)`. -/
def quantStep (e : ℕ) : ℕ := 2 ^ (e + 3)

/-- JavaScript arithmetic right shift by one (`>> 1`): floor division by 2. -/
def shr1 (z : ℤ) : ℤ := Int.fdiv z 2

/-- `ulawFrameToPcm16Array` from server.js, with the base64 frame already
decoded to its list of bytes. -/
def ulawFrameToPcm16Array (b : List ℕ) : List ℤ := b.map ulawToPcm16

/-- `pcm16ArrayToUlawFrame` from server.js, producing the list of bytes
that the base64 payload encodes. -/
def pcm16ArrayToUlawFrame (int16 : List ℤ) : List ℕ := int16.map pcm16ToUlaw

/-- `pcm8kTo16k(x8)` from server.js: naive 2× linear-interpolation
upsampling.  Slot `2*i` holds `x8[i]` and slot `2*i+1` the floor average
of `x8[i]` and `x8[i+1]` for `i < length - 1`; the final two slots both
hold the last input sample.  Every store goes through `Int16Array`
wrapping. -/
def pcm8kTo16k (x8 : List ℤ) : List ℤ :=
  (List.range (2 * x8.length)).map fun k =>
    if k < 2 * (x8.length - 1) then
      if k % 2 = 0 then toInt16 (x8.getD (k / 2) 0)
      else toInt16 (shr1 (x8.getD (k / 2) 0 + x8.getD (k / 2 + 1) 0))
    else toInt16 (x8.getD (x8.length - 1) 0)

/-- `pcm16kTo8k(x16)` from server.js: decimation keeping the even-indexed
samples. -/
def pcm16kTo8k (x16 : List ℤ) : List ℤ :=
  (List.range (x16.length / 2)).map fun j => toInt16 (x16.getD (2 * j) 0)

/-- State of one WebSocket as far as the bridge observes it. -/
inductive ChanState
  | opened
  | closed
  deriving DecidableEq

/-- `ws.close()`: drives any channel to the closed state; closing an
already-closed socket is a no-op (and the callers additionally swallow
exceptions), so the result is `closed` in every case. -/
def closeChan : ChanState → ChanState := fun _ => ChanState.closed

/-- Messages the bridge sends to the agent (OpenAI) channel. -/
inductive OAIOut
  | appendAudio (samples : List ℤ)
  | commit
  | responseCreate
  | responseCancel
  deriving DecidableEq

/-- An outbound playback frame for the caller (Twilio) channel, with the
base64 payload kept as the byte list it encodes. -/
structure TwilioMedia where
  sid : String
  payload : List ℕ
  deriving DecidableEq

/-- An inbound agent-channel event as far as the handler inspects it:
its `type` tag and the decoded PCM chunks optionally carried under the
`audio` and `delta` fields. -/
structure OAIEvent where
  type : String
  audio : Option (List ℤ)
  delta : Option (List ℤ)
  deriving DecidableEq

/-- The per-connection mutable state of one bridged call in server.js:
`streamSid`, `oaiWS` (null or a channel), the caller socket,
`responseActive`, `lastCancelTs`, `pendingSamples16k` and `ttsQueue`. -/
structure SessionState where
  streamSid : Option String
  oaiConn : Option ChanState
  twilioConn : ChanState
  responseActive : Bool
  lastCancelTs : ℤ
  pendingSamples16k : ℕ
  ttsQueue : List (List ℤ)
  deriving DecidableEq

/-- The commit threshold `MIN_SAMPLES_100MS` from server.js:
100 ms of audio at 16 kHz. -/
def MIN_SAMPLES_100MS : ℕ := 1600

/-- `bargeIn()` from server.js: if the agent channel exists, a response is
active and more than 250 ms have elapsed since the last cancellation,
send `response.cancel`, clear `responseActive` and stamp `lastCancelTs`. -/
def bargeIn (now : ℤ) (s : SessionState) : SessionState × List OAIOut :=
  if s.oaiConn.isSome ∧ s.responseActive ∧ now - s.lastCancelTs > 250 then
    ({ s with responseActive := false, lastCancelTs := now }, [OAIOut.responseCancel])
  else (s, [])

/-- The `media` branch of the caller-channel message handler: guarded by
`oaiWS` being non-null, it runs `bargeIn`, decodes and upsamples the
frame, appends it to the agent buffer, accumulates the 16 kHz sample
count and, at the commit threshold, commits, resets the accumulator and
requests a response when none is active. -/
def handleMedia (now : ℤ) (payload : List ℕ) (s : SessionState) :
    SessionState × List OAIOut :=
  if s.oaiConn.isSome then
    let r1 := bargeIn now s
    let pcm16k := pcm8kTo16k (ulawFrameToPcm16Array payload)
    let pending := r1.1.pendingSamples16k + pcm16k.length
    if MIN_SAMPLES_100MS ≤ pending then
      if r1.1.responseActive then
        ({ r1.1 with pendingSamples16k := 0 },
          r1.2 ++ [OAIOut.appendAudio pcm16k, OAIOut.commit])
      else
        ({ r1.1 with pendingSamples16k := 0, responseActive := true },
          r1.2 ++ [OAIOut.appendAudio pcm16k, OAIOut.commit, OAIOut.responseCreate])
    else
      ({ r1.1 with pendingSamples16k := pending },
        r1.2 ++ [OAIOut.appendAudio pcm16k])
  else (s, [])

/-- The agent-channel message handler (state-mutating part): the response
lifecycle flags on `response.created` / `response.done`, and the two
audio-delta schema variants, each appending its chunk to `ttsQueue`. -/
def handleOAIMessage (m : OAIEvent) (s : SessionState) : SessionState :=
  let s1 := if m.type = "response.created" then { s with responseActive := true } else s
  let s2 := if m.type = "response.done" then { s1 with responseActive := false } else s1
  let s3 :=
    if m.type = "response.output_audio.delta" then
      match m.audio with
      | some chunk => { s2 with ttsQueue := s2.ttsQueue ++ [chunk] }
      | none => s2
    else s2
  if m.type = "output_audio_buffer.delta" then
    match m.delta with
    | some chunk => { s3 with ttsQueue := s3.ttsQueue ++ [chunk] }
    | none => s3
  else s3

/-- One firing of the `ttsTimer` interval: a no-op unless the stream id
is known and the queue is non-empty, otherwise it dequeues the oldest
chunk, downsamples and companding-encodes it, and emits one caller
frame. -/
def pacerTick (s : SessionState) : SessionState × Option TwilioMedia :=
  match s.streamSid with
  | none => (s, none)
  | some sid =>
    match s.ttsQueue with
    | [] => (s, none)
    | chunk :: rest =>
        ({ s with ttsQueue := rest },
          some ⟨sid, pcm16ArrayToUlawFrame (pcm16kTo8k chunk)⟩)

/-- Iterate the pacer `n` ticks, collecting the emitted frames in order. -/
def runTicks : ℕ → SessionState → SessionState × List TwilioMedia
  | 0, s => (s, [])
  | n + 1, s =>
      let r := pacerTick s
      let rest := runTicks n r.1
      (rest.1, r.2.toList ++ rest.2)

/-- The `stop` branch of the caller-channel message handler: close the
agent channel if it exists, then close the caller channel, each inside a
try/catch. -/
def handleStop (s : SessionState) : SessionState :=
  { s with oaiConn := s.oaiConn.map closeChan, twilioConn := closeChan s.twilioConn }

/-- Number of `commit` messages in a batch of agent-channel sends. -/
def countCommits (l : List OAIOut) : ℕ :=
  (l.filter fun m => match m with | OAIOut.commit => true | _ => false).length

/-- Number of `response.cancel` messages in a batch of agent-channel
sends. -/
def countCancels (l : List OAIOut) : ℕ :=
  (l.filter fun m => match m with | OAIOut.responseCancel => true | _ => false).length

/-- A concrete mid-call state: stream known, channels open, no response
active, 1598 samples already accumulated. -/
def exampleStateNoResponse : SessionState :=
  { streamSid := some "S1", oaiConn := some ChanState.opened,
    twilioConn := ChanState.opened, responseActive := false,
    lastCancelTs := 0, pendingSamples16k := 1598, ttsQueue := [] }

/-- A concrete mid-call state with an active response and a cancellation
stamped at time 0. -/
def exampleStateActive : SessionState :=
  { exampleStateNoResponse with responseActive := true }

/-- Masking with `63 <<< k` selects the six bits at positions `k, …, k+5`:
in arithmetic form, `x &&& (63 <<< k) = (x / 2 ^ k % 64) <<< k`. -/
theorem land_mask_div (x k : ℕ) : x &&& (63 <<< k) = (x / 2 ^ k % 64) <<< k := by
  have h63 : (63 : ℕ) = 2 ^ 6 - 1 := rfl
  have h64 : (64 : ℕ) = 2 ^ 6 := rfl
  apply Nat.eq_of_testBit_eq
  intro i
  rcases Nat.lt_or_ge i k with h | h
  · rw [Nat.testBit_land, Nat.testBit_shiftLeft, Nat.testBit_shiftLeft]
    have hik : ¬ (i ≥ k) := by omega
    simp [hik]
  · rw [Nat.testBit_land, Nat.testBit_shiftLeft, Nat.testBit_shiftLeft, h64,
      ← Nat.shiftRight_eq_div_pow, Nat.testBit_mod_two_pow, Nat.testBit_shiftRight, h63,
      Nat.testBit_two_pow_sub_one]
    have hik : k + (i - k) = i := by omega
    rw [hik]
    have hge : i ≥ k := h
    simp [hge, Bool.and_comm]

/-- The segment test of the encoder loop in arithmetic form:
`x & (8064 << j)` is nonzero iff the six bits of `x` at positions
`j+7, …, j+12` are not all zero. -/
theorem exponent_test_iff (x j : ℕ) :
    x &&& (8064 <<< j) ≠ 0 ↔ x / 2 ^ (7 + j) % 64 ≠ 0 := by
  have h8064 : (8064 : ℕ) = 63 <<< 7 := rfl
  have hshift : (8064 : ℕ) <<< j = 63 <<< (7 + j) := by
    rw [h8064, ← Nat.shiftLeft_add]
  rw [hshift, land_mask_div, Nat.shiftLeft_eq]
  constructor
  · intro hne heq
    rw [heq] at hne
    simp at hne
  · intro hne heq
    have h2 : (2 : ℕ) ^ (7 + j) ≠ 0 := by positivity
    rcases Nat.mul_eq_zero.mp heq with h' | h'
    · exact hne h'
    · exact h2 h'

/-- Iterating the encoder's candidate loop past a candidate whose segment
lies entirely above `x` leaves the result unchanged. -/
theorem ulawExponentLoop_skip (x j : ℕ) (h : x < 2 ^ (7 + j)) :
    ulawExponentLoop x (j + 1) = ulawExponentLoop x j := by
  have ht : ¬ x &&& (8064 <<< j) ≠ 0 := by
    rw [exponent_test_iff]
    have h0 : x / 2 ^ (7 + j) = 0 := Nat.div_eq_of_lt h
    simp [h0]
  simp only [ulawExponentLoop]
  simp [ht]

/-- The encoder's candidate loop stops at candidate `j + 1` whenever `x`
has a set bit among positions `j+7, …, j+12`. -/
theorem ulawExponentLoop_hit (x j : ℕ) (hlo : 2 ^ (7 + j) ≤ x) (hhi : x < 2 ^ (13 + j)) :
    ulawExponentLoop x (j + 1) = j + 1 := by
  have ht : x &&& (8064 <<< j) ≠ 0 := by
    rw [exponent_test_iff]
    have h1 : 1 ≤ x / 2 ^ (7 + j) := (Nat.one_le_div_iff (by positivity)).mpr hlo
    have h2 : x / 2 ^ (7 + j) < 64 := by
      apply Nat.div_lt_of_lt_mul
      have : (2 : ℕ) ^ (13 + j) = 2 ^ (7 + j) * 64 := by ring
      omega
    omega
  simp only [ulawExponentLoop]
  simp [ht]

/-- For `x` in the segment `[2 ^ (6 + k), 2 ^ (7 + k))` with `1 ≤ k ≤ 7`,
the encoder's exponent loop started at candidate 7 returns `k`. -/
theorem ulawExponentLoop_of_seg (x k : ℕ) (hk1 : 1 ≤ k) (hk7 : k ≤ 7)
    (hlo : 2 ^ (6 + k) ≤ x) (hhi : x < 2 ^ (7 + k)) :
    ulawExponentLoop x 7 = k := by
  have hgen : ∀ j, k ≤ j → j ≤ 7 → ulawExponentLoop x j = k := by
    intro j
    induction j with
    | zero => intro h0 _; omega
    | succ j ih =>
        intro hkj hj7
        rcases Nat.eq_or_lt_of_le hkj with heq | hlt
        · have hj : j = k - 1 := by omega
          subst hj
          have h1 : 7 + (k - 1) = 6 + k := by omega
          have h2 : 2 ^ (7 + (k - 1)) ≤ x := by rw [h1]; exact hlo
          have h3 : x < 2 ^ (13 + (k - 1)) := by
            have : (2 : ℕ) ^ (7 + k) ≤ 2 ^ (13 + (k - 1)) :=
              Nat.pow_le_pow_right (by omega) (by omega)
            omega
          have := ulawExponentLoop_hit x (k - 1) h2 h3
          rw [this]
          omega
        · have hx : x < 2 ^ (7 + j) := by
            have : (2 : ℕ) ^ (7 + k) ≤ 2 ^ (7 + j) :=
              Nat.pow_le_pow_right (by omega) (by omega)
            omega
          rw [ulawExponentLoop_skip x j hx]
          exact ih (by omega) (by omega)
  exact hgen 7 hk7 le_rfl

/-- The whole top range `[2 ^ 13, 2 ^ 15)` of biased magnitudes maps to
exponent 7 (the first candidate's mask covers bits 13–18). -/
theorem ulawExponentLoop_top (x : ℕ) (hlo : 2 ^ 13 ≤ x) (hhi : x < 2 ^ 15) :
    ulawExponentLoop x 7 = 7 := by
  have := ulawExponentLoop_hit x 6 (by omega) (by omega)
  simpa using this

/-- The encoder's exponent loop always returns a value between 1 and 7
when started at a candidate between 1 and 7. -/
theorem ulawExponentLoop_bounds (x : ℕ) :
    ∀ j, j ≤ 7 → 1 ≤ ulawExponentLoop x j ∧ ulawExponentLoop x j ≤ 7 := by
  intro j
  induction j with
  | zero => intro _; simp [ulawExponentLoop]
  | succ j ih =>
      intro hj
      rw [ulawExponentLoop]
      by_cases ht : x &&& (8064 <<< j) ≠ 0
      · simp [ht]; omega
      · simp [ht]; exact ih (by omega)

/-- The mantissa extraction `(x >>> c) &&& 15` in arithmetic form. -/
theorem mantissa_div (x c : ℕ) : (x >>> c) &&& 15 = x / 2 ^ c % 16 := by
  have h15 : (15 : ℕ) = 2 ^ 4 - 1 := rfl
  have h16 : (16 : ℕ) = 2 ^ 4 := rfl
  rw [Nat.shiftRight_eq_div_pow, h15, Nat.and_pow_two_sub_one_eq_mod, h16]

/-- Decoding the byte the encoder assembles for a nonnegative sample:
for every exponent field `e < 8` and mantissa field `m < 16`, the decoder
returns `m * 2 ^ (e + 3)`. -/
theorem ulawToPcm16_assemble_pos :
    ∀ e < 8, ∀ m < 16,
      ulawToPcm16 ((0 ||| (e <<< 4) ||| m) ^^^ 255) = (m : ℤ) * 2 ^ (e + 3) := by
  decide

/-- Decoding the byte the encoder assembles for a negative sample:
the sign bit 128 makes the decoder return `-(m * 2 ^ (e + 3))`. -/
theorem ulawToPcm16_assemble_neg :
    ∀ e < 8, ∀ m < 16,
      ulawToPcm16 ((128 ||| (e <<< 4) ||| m) ^^^ 255) = -((m : ℤ) * 2 ^ (e + 3)) := by
  decide

/-- Closed form of the codec round trip: decoding the encoding of any
sample yields the sign of the sample times the requantized magnitude
`(x2 / 2 ^ (e + 3) % 16) * 2 ^ (e + 3)`, where `x2` is the clamped biased
magnitude and `e` the exponent the encoder's loop selects for it. -/
theorem decode_encode_eq (p : ℤ) :
    ulawToPcm16 (pcm16ToUlaw p) =
      (if p < 0 then (-1 : ℤ) else 1) *
        ((clampBiasedMagnitude p / 2 ^ (ulawExponentLoop (clampBiasedMagnitude p) 7 + 3) % 16 : ℕ) *
          2 ^ (ulawExponentLoop (clampBiasedMagnitude p) 7 + 3)) := by
  have hE := ulawExponentLoop_bounds (clampBiasedMagnitude p) 7 le_rfl
  have hm : clampBiasedMagnitude p / 2 ^ (ulawExponentLoop (clampBiasedMagnitude p) 7 + 3) % 16 < 16 :=
    Nat.mod_lt _ (by norm_num)
  by_cases hp : p < 0
  · have hb : pcm16ToUlaw p =
        (128 ||| (ulawExponentLoop (clampBiasedMagnitude p) 7 <<< 4) |||
          (clampBiasedMagnitude p / 2 ^ (ulawExponentLoop (clampBiasedMagnitude p) 7 + 3) % 16)) ^^^ 255 := by
      simp only [pcm16ToUlaw, mantissa_div]
      rw [if_pos hp]
    rw [hb, ulawToPcm16_assemble_neg _ (by omega) _ hm, if_pos hp]
    push_cast
    ring
  · have hb : pcm16ToUlaw p =
        (0 ||| (ulawExponentLoop (clampBiasedMagnitude p) 7 <<< 4) |||
          (clampBiasedMagnitude p / 2 ^ (ulawExponentLoop (clampBiasedMagnitude p) 7 + 3) % 16)) ^^^ 255 := by
      simp only [pcm16ToUlaw, mantissa_div]
      rw [if_neg hp]
    rw [hb, ulawToPcm16_assemble_pos _ (by omega) _ hm, if_neg hp]
    push_cast
    ring

/-- Sign handling of the round trip: the error magnitude only depends on
the magnitude of the sample. -/
theorem sign_err (x v : ℤ) :
    ((if x < 0 then (-1 : ℤ) else 1) * v - x).natAbs = (v - (x.natAbs : ℤ)).natAbs := by
  by_cases hx : x < 0
  · rw [if_pos hx]
    omega
  · rw [if_neg hx]
    omega

/-- Claim C3 (amended): for every in-range 16-bit sample the absolute
reconstruction error is at most 17408 overall, and at most the segment's
quantization step plus the bias constant 132 whenever the clamped biased
magnitude stays below 16384 (the claimed bound of the step alone fails,
see the counterexample at 0). -/
theorem c3_error_bound (x : ℤ) (h1 : -32768 ≤ x) (h2 : x ≤ 32767) :
    (ulawToPcm16 (pcm16ToUlaw x) - x).natAbs ≤ 17408 ∧
      (clampBiasedMagnitude x < 16384 →
        (ulawToPcm16 (pcm16ToUlaw x) - x).natAbs ≤
          quantStep (ulawExponentLoop (clampBiasedMagnitude x) 7) + 132) := by
  have hd := decode_encode_eq x
  have hXdef : clampBiasedMagnitude x = (if x.natAbs > 32635 then 32635 else x.natAbs) + 132 := rfl
  have hXlo : 132 ≤ clampBiasedMagnitude x := by rw [hXdef]; split <;> omega
  have hXhi : clampBiasedMagnitude x ≤ 32767 := by rw [hXdef]; split <;> omega
  have hmag : x.natAbs ≤ 32768 := by omega
  have hXcase : (x.natAbs ≤ 32635 ∧ clampBiasedMagnitude x = x.natAbs + 132) ∨
      (32635 < x.natAbs ∧ clampBiasedMagnitude x = 32767) := by
    by_cases hc : x.natAbs > 32635
    · right
      refine ⟨by omega, ?_⟩
      rw [hXdef, if_pos hc]
    · left
      refine ⟨by omega, ?_⟩
      rw [hXdef, if_neg hc]
  have herr : (ulawToPcm16 (pcm16ToUlaw x) - x).natAbs =
      (((clampBiasedMagnitude x / 2 ^ (ulawExponentLoop (clampBiasedMagnitude x) 7 + 3) % 16 : ℕ) : ℤ) *
        2 ^ (ulawExponentLoop (clampBiasedMagnitude x) 7 + 3) - (x.natAbs : ℤ)).natAbs := by
    rw [hd]
    exact sign_err x _
  rw [herr]
  by_cases hs1 : clampBiasedMagnitude x < 256
  · have hE : ulawExponentLoop (clampBiasedMagnitude x) 7 = 1 :=
      ulawExponentLoop_of_seg _ 1 (by norm_num) (by norm_num) (by norm_num; omega) (by norm_num; omega)
    have hpz : (2 : ℤ) ^ (1 + 3) = 16 := by norm_num
    have hpn : (2 : ℕ) ^ (1 + 3) = 16 := by norm_num
    have hq : quantStep 1 = 16 := by norm_num [quantStep]
    rw [hE, hpz, hpn, hq]
    rcases hXcase with ⟨hm, hXm⟩ | ⟨hm, hXm⟩ <;> omega
  by_cases hs2 : clampBiasedMagnitude x < 512
  · have hE : ulawExponentLoop (clampBiasedMagnitude x) 7 = 2 :=
      ulawExponentLoop_of_seg _ 2 (by norm_num) (by norm_num) (by norm_num; omega) (by norm_num; omega)
    have hpz : (2 : ℤ) ^ (2 + 3) = 32 := by norm_num
    have hpn : (2 : ℕ) ^ (2 + 3) = 32 := by norm_num
    have hq : quantStep 2 = 32 := by norm_num [quantStep]
    rw [hE, hpz, hpn, hq]
    rcases hXcase with ⟨hm, hXm⟩ | ⟨hm, hXm⟩ <;> omega
  by_cases hs3 : clampBiasedMagnitude x < 1024
  · have hE : ulawExponentLoop (clampBiasedMagnitude x) 7 = 3 :=
      ulawExponentLoop_of_seg _ 3 (by norm_num) (by norm_num) (by norm_num; omega) (by norm_num; omega)
    have hpz : (2 : ℤ) ^ (3 + 3) = 64 := by norm_num
    have hpn : (2 : ℕ) ^ (3 + 3) = 64 := by norm_num
    have hq : quantStep 3 = 64 := by norm_num [quantStep]
    rw [hE, hpz, hpn, hq]
    rcases hXcase with ⟨hm, hXm⟩ | ⟨hm, hXm⟩ <;> omega
  by_cases hs4 : clampBiasedMagnitude x < 2048
  · have hE : ulawExponentLoop (clampBiasedMagnitude x) 7 = 4 :=
      ulawExponentLoop_of_seg _ 4 (by norm_num) (by norm_num) (by norm_num; omega) (by norm_num; omega)
    have hpz : (2 : ℤ) ^ (4 + 3) = 128 := by norm_num
    have hpn : (2 : ℕ) ^ (4 + 3) = 128 := by norm_num
    have hq : quantStep 4 = 128 := by norm_num [quantStep]
    rw [hE, hpz, hpn, hq]
    rcases hXcase with ⟨hm, hXm⟩ | ⟨hm, hXm⟩ <;> omega
  by_cases hs5 : clampBiasedMagnitude x < 4096
  · have hE : ulawExponentLoop (clampBiasedMagnitude x) 7 = 5 :=
      ulawExponentLoop_of_seg _ 5 (by norm_num) (by norm_num) (by norm_num; omega) (by norm_num; omega)
    have hpz : (2 : ℤ) ^ (5 + 3) = 256 := by norm_num
    have hpn : (2 : ℕ) ^ (5 + 3) = 256 := by norm_num
    have hq : quantStep 5 = 256 := by norm_num [quantStep]
    rw [hE, hpz, hpn, hq]
    rcases hXcase with ⟨hm, hXm⟩ | ⟨hm, hXm⟩ <;> omega
  by_cases hs6 : clampBiasedMagnitude x < 8192
  · have hE : ulawExponentLoop (clampBiasedMagnitude x) 7 = 6 :=
      ulawExponentLoop_of_seg _ 6 (by norm_num) (by norm_num) (by norm_num; omega) (by norm_num; omega)
    have hpz : (2 : ℤ) ^ (6 + 3) = 512 := by norm_num
    have hpn : (2 : ℕ) ^ (6 + 3) = 512 := by norm_num
    have hq : quantStep 6 = 512 := by norm_num [quantStep]
    rw [hE, hpz, hpn, hq]
    rcases hXcase with ⟨hm, hXm⟩ | ⟨hm, hXm⟩ <;> omega
  · have hE : ulawExponentLoop (clampBiasedMagnitude x) 7 = 7 :=
      ulawExponentLoop_top _ (by norm_num; omega) (by norm_num; omega)
    have hpz : (2 : ℤ) ^ (7 + 3) = 1024 := by norm_num
    have hpn : (2 : ℕ) ^ (7 + 3) = 1024 := by norm_num
    have hq : quantStep 7 = 1024 := by norm_num [quantStep]
    rw [hE, hpz, hpn, hq]
    rcases hXcase with ⟨hm, hXm⟩ | ⟨hm, hXm⟩ <;> omega

/-- Claim C3 (counterexample): at the sample 0 the reconstruction error is
128, while the quantization step of the segment that contains the clamped,
biased magnitude of 0 is only 16 — so the claimed per-segment step bound
fails. -/
theorem c3_counterexample :
    (ulawToPcm16 (pcm16ToUlaw 0) - 0).natAbs = 128 ∧
      quantStep (ulawExponentLoop (clampBiasedMagnitude 0) 7) = 16 ∧ ¬ (128 : ℕ) ≤ 16 := by
  decide

/-- Witness for `c3_error_bound` at the concrete sample 3. -/
theorem c3_error_bound_witness :
    (ulawToPcm16 (pcm16ToUlaw 3) - 3).natAbs ≤ 17408 ∧
      (clampBiasedMagnitude 3 < 16384 →
        (ulawToPcm16 (pcm16ToUlaw 3) - 3).natAbs ≤
          quantStep (ulawExponentLoop (clampBiasedMagnitude 3) 7) + 132) :=
  c3_error_bound 3 (by norm_num) (by norm_num)

/-- Claim C1 (counterexample): encoding the decoding of the companded byte
255 yields 231, not 255, so the round trip is not the identity on all 256
byte values. -/
theorem c1_counterexample : pcm16ToUlaw (ulawToPcm16 255) = 231 ∧ (231 : ℕ) ≠ 255 := by
  decide

set_option maxRecDepth 4096 in
/-- Claim C1 (amended): the round trip `encode (decode b)` fixes exactly
those 48 companded bytes whose ones'-complemented value has exponent
field at least 5 and mantissa field at least 8; on every other byte
(255 among them) it is not the identity. -/
theorem c1_roundtrip_characterization :
    ∀ b : Fin 256,
      pcm16ToUlaw (ulawToPcm16 b.val) = b.val ↔
        5 ≤ ((b.val ^^^ 255) >>> 4) &&& 7 ∧ 8 ≤ (b.val ^^^ 255) &&& 15 := by
  decide

/-- Claim C10: the decoder is not injective — the bytes 127 and 255 (the
format's positive and negative zero codes) both decode to the linear
sample 0. -/
theorem c10_decoder_not_injective :
    ulawToPcm16 127 = 0 ∧ ulawToPcm16 255 = 0 ∧ (127 : ℕ) ≠ 255 := by
  decide

/-- Reading a mapped range list with a default: inside the range it is the
mapped function, outside it is the default. -/
theorem getD_map_range (L : ℕ) (f : ℕ → ℤ) (i : ℕ) (d : ℤ) :
    ((List.range L).map f).getD i d = if i < L then f i else d := by
  by_cases h : i < L
  · rw [if_pos h, List.getD_eq_getElem _ _ (by simp [h]), List.getElem_map, List.getElem_range]
  · rw [if_neg h, List.getD_eq_default _ _ (by simp; omega)]

/-- Int16 wrapping is the identity on values already in range. -/
theorem toInt16_of_range (z : ℤ) (h1 : -32768 ≤ z) (h2 : z ≤ 32767) : toInt16 z = z := by
  unfold toInt16
  omega

/-- Claim C2: for every sample sequence of even length at least 2 whose
entries are in Int16 range, downsampling the 2× upsampled sequence gives
back the sequence element-wise. -/
theorem c2_downsample_upsample (s : List ℤ)
    (hrange : ∀ v ∈ s, -32768 ≤ v ∧ v ≤ 32767)
    (heven : s.length % 2 = 0) (hlen : 2 ≤ s.length) :
    ∀ i < s.length, (pcm16kTo8k (pcm8kTo16k s)).getD i 0 = s.getD i 0 := by
  intro i hi
  have hup : (pcm8kTo16k s).length = 2 * s.length := by
    simp [pcm8kTo16k]
  have hsv : s.getD i 0 ∈ s := by
    rw [List.getD_eq_getElem s 0 hi]
    exact List.getElem_mem hi
  obtain ⟨hr1, hr2⟩ := hrange _ hsv
  rw [pcm16kTo8k, getD_map_range, hup, if_pos (by omega : i < 2 * s.length / 2)]
  rw [pcm8kTo16k, getD_map_range, if_pos (by omega : 2 * i < 2 * s.length)]
  by_cases hmid : 2 * i < 2 * (s.length - 1)
  · rw [if_pos hmid, if_pos (by omega : 2 * i % 2 = 0)]
    have h2i : 2 * i / 2 = i := by omega
    rw [h2i, toInt16_of_range _ hr1 hr2, toInt16_of_range _ hr1 hr2]
  · rw [if_neg hmid]
    have hieq : s.length - 1 = i := by omega
    rw [hieq, toInt16_of_range _ hr1 hr2, toInt16_of_range _ hr1 hr2]

/-- Witness for `c2_downsample_upsample` on the concrete sequence
`[5, -7]` at index 1. -/
theorem c2_downsample_upsample_witness :
    (pcm16kTo8k (pcm8kTo16k [(5 : ℤ), -7])).getD 1 0 = [(5 : ℤ), -7].getD 1 0 :=
  c2_downsample_upsample [(5 : ℤ), -7] (by decide) (by decide) (by decide) 1 (by decide)

/-- `bargeIn` never touches the sample accumulator. -/
theorem bargeIn_pending (now : ℤ) (s : SessionState) :
    (bargeIn now s).1.pendingSamples16k = s.pendingSamples16k := by
  unfold bargeIn
  split <;> rfl

/-- `bargeIn` either fires — requiring an active response — and cancels,
or leaves the state untouched and sends nothing. -/
theorem bargeIn_cases (now : ℤ) (s : SessionState) :
    (s.responseActive = true ∧ now - s.lastCancelTs > 250 ∧
        bargeIn now s =
          ({ s with responseActive := false, lastCancelTs := now },
            [OAIOut.responseCancel])) ∨
      bargeIn now s = (s, []) := by
  unfold bargeIn
  by_cases h : s.oaiConn.isSome ∧ s.responseActive ∧ now - s.lastCancelTs > 250
  · rw [if_pos h]
    exact Or.inl ⟨h.2.1, h.2.2, rfl⟩
  · rw [if_neg h]
    exact Or.inr rfl

/-- The agent-channel event handler never touches the cancel timestamp,
the channel handles or the accumulator. -/
theorem handleOAIMessage_preserves (m : OAIEvent) (s : SessionState) :
    (handleOAIMessage m s).lastCancelTs = s.lastCancelTs ∧
      (handleOAIMessage m s).oaiConn = s.oaiConn ∧
      (handleOAIMessage m s).pendingSamples16k = s.pendingSamples16k ∧
      (handleOAIMessage m s).streamSid = s.streamSid := by
  rcases m with ⟨ty, au, de⟩
  unfold handleOAIMessage
  dsimp only
  by_cases h1 : ty = "response.created" <;> by_cases h2 : ty = "response.done" <;>
    by_cases h3 : ty = "response.output_audio.delta" <;>
      by_cases h4 : ty = "output_audio_buffer.delta" <;>
        cases au <;> cases de <;> simp [h1, h2, h3, h4]

/-- Claim C5: a cancellation is only issued while a response is active and
more than 250 ms after the previous cancellation; two consecutive
barge-in triggers less than 250 ms apart produce at most one
cancellation, even if a response-created event arrives in between. -/
theorem c5_cancel_debounce (s : SessionState) (t1 t2 : ℤ) (m : OAIEvent) :
    ((bargeIn t1 s).2 ≠ [] → s.responseActive = true ∧ t1 - s.lastCancelTs > 250) ∧
      (t2 - t1 < 250 →
        countCancels ((bargeIn t1 s).2 ++ (bargeIn t2 (bargeIn t1 s).1).2) ≤ 1) ∧
      ((bargeIn t1 s).2 ≠ [] → t2 - t1 ≤ 250 →
        (bargeIn t2 (handleOAIMessage m (bargeIn t1 s).1)).2 = []) := by
  rcases bargeIn_cases t1 s with ⟨ha, ht, heq⟩ | heq
  · refine ⟨fun _ => ⟨ha, ht⟩, fun _ => ?_, fun _ h250 => ?_⟩
    · rw [heq]
      rcases bargeIn_cases t2 ({ s with responseActive := false, lastCancelTs := t1 })
        with ⟨ha2, _, _⟩ | heq2
      · simp at ha2
      · rw [heq2]
        simp [countCancels]
    · have hpre := (handleOAIMessage_preserves m
        ({ s with responseActive := false, lastCancelTs := t1 })).1
      rw [heq]
      unfold bargeIn
      rw [if_neg (by
        rintro ⟨_, _, hgt⟩
        rw [hpre] at hgt
        simp at hgt
        omega)]
  · refine ⟨fun hne => ?_, fun _ => ?_, fun hne _ => ?_⟩
    · rw [heq] at hne
      simp at hne
    · rw [heq]
      rcases bargeIn_cases t2 s with ⟨_, _, heq2⟩ | heq2 <;> rw [heq2] <;>
        simp [countCancels]
    · rw [heq] at hne
      simp at hne

/-- Witness for `c5_cancel_debounce` at a concrete state and pair of
trigger times 300 and 400. -/
theorem c5_cancel_debounce_witness :
    ((bargeIn 300 exampleStateActive).2 ≠ [] →
        exampleStateActive.responseActive = true ∧
          300 - exampleStateActive.lastCancelTs > 250) ∧
      ((400 : ℤ) - 300 < 250 →
        countCancels ((bargeIn 300 exampleStateActive).2 ++
          (bargeIn 400 (bargeIn 300 exampleStateActive).1).2) ≤ 1) ∧
      ((bargeIn 300 exampleStateActive).2 ≠ [] → (400 : ℤ) - 300 ≤ 250 →
        (bargeIn 400 (handleOAIMessage ⟨"response.created", none, none⟩
          (bargeIn 300 exampleStateActive).1)).2 = []) :=
  c5_cancel_debounce exampleStateActive 300 400 ⟨"response.created", none, none⟩

/-- Claim C8: after the stop handler both channels are closed — the agent
side also when it was never opened (then there is nothing to close) — and
the teardown is idempotent; closing an already-closed channel is a no-op. -/
theorem c8_stop_teardown (s : SessionState) :
    (handleStop s).twilioConn = ChanState.closed ∧
      (handleStop s).oaiConn ≠ some ChanState.opened ∧
      (s.oaiConn = none → (handleStop s).oaiConn = none) ∧
      handleStop (handleStop s) = handleStop s ∧
      closeChan ChanState.closed = ChanState.closed := by
  unfold handleStop closeChan
  cases h : s.oaiConn <;> simp [h]

/-- `countCommits` distributes over list append. -/
theorem countCommits_append (a b : List OAIOut) :
    countCommits (a ++ b) = countCommits a + countCommits b := by
  simp [countCommits, List.filter_append]

/-- Claim C4: on each media frame, exactly one commit is emitted iff the
accumulator (previous count plus this frame's 16 kHz samples) reaches
1600; at a commit the accumulator is reset to zero, otherwise it keeps
the running sum; and a create-response is emitted only when, after the
barge-in check, no response is active and the threshold was reached. -/
theorem c4_commit_accumulator (now : ℤ) (payload : List ℕ) (s : SessionState)
    (hconn : s.oaiConn.isSome) :
    countCommits (handleMedia now payload s).2 =
        (if 1600 ≤ s.pendingSamples16k + (pcm8kTo16k (ulawFrameToPcm16Array payload)).length
          then 1 else 0) ∧
      (1600 ≤ s.pendingSamples16k + (pcm8kTo16k (ulawFrameToPcm16Array payload)).length →
        (handleMedia now payload s).1.pendingSamples16k = 0) ∧
      (¬ 1600 ≤ s.pendingSamples16k + (pcm8kTo16k (ulawFrameToPcm16Array payload)).length →
        (handleMedia now payload s).1.pendingSamples16k =
          s.pendingSamples16k + (pcm8kTo16k (ulawFrameToPcm16Array payload)).length) ∧
      (OAIOut.responseCreate ∈ (handleMedia now payload s).2 →
        (bargeIn now s).1.responseActive = false ∧
          1600 ≤ s.pendingSamples16k + (pcm8kTo16k (ulawFrameToPcm16Array payload)).length) := by
  have hbp := bargeIn_pending now s
  have hc0 : ∀ l : List ℤ, countCommits [OAIOut.appendAudio l] = 0 := by
    intro l
    simp [countCommits]
  have hc1 : ∀ l : List ℤ, countCommits [OAIOut.appendAudio l, OAIOut.commit] = 1 := by
    intro l
    simp [countCommits]
  have hc2 : ∀ l : List ℤ,
      countCommits [OAIOut.appendAudio l, OAIOut.commit, OAIOut.responseCreate] = 1 := by
    intro l
    simp [countCommits]
  have hbc : countCommits (bargeIn now s).2 = 0 := by
    rcases bargeIn_cases now s with ⟨_, _, heq⟩ | heq <;> rw [heq] <;> simp [countCommits]
  unfold handleMedia
  rw [if_pos hconn]
  simp only [MIN_SAMPLES_100MS]
  by_cases hth : 1600 ≤ (bargeIn now s).1.pendingSamples16k +
      (pcm8kTo16k (ulawFrameToPcm16Array payload)).length
  · rw [if_pos hth]
    rw [hbp] at hth
    by_cases hra : (bargeIn now s).1.responseActive = true
    · rw [if_pos hra]
      refine ⟨?_, fun _ => rfl, fun hn => absurd hth hn, fun hmem => ?_⟩
      · rw [if_pos hth]
        rw [countCommits_append, hbc, hc1]
      · exfalso
        rcases bargeIn_cases now s with ⟨_, _, heq⟩ | heq <;> rw [heq] at hmem <;>
          simp at hmem
    · rw [if_neg hra]
      refine ⟨?_, fun _ => rfl, fun hn => absurd hth hn, fun _ => ⟨by simpa using hra, hth⟩⟩
      rw [if_pos hth]
      rw [countCommits_append, hbc, hc2]
  · rw [if_neg hth]
    rw [hbp] at hth
    refine ⟨?_, fun h => absurd h hth, fun _ => by rw [hbp], fun hmem => ?_⟩
    · rw [if_neg hth]
      rw [countCommits_append, hbc, hc0]
    · exfalso
      rcases bargeIn_cases now s with ⟨_, _, heq⟩ | heq <;> rw [heq] at hmem <;>
        simp at hmem

/-- Witness for `c4_commit_accumulator` at the concrete state with 1598
accumulated samples and a one-byte frame (2 samples after upsampling). -/
theorem c4_commit_accumulator_witness :
    countCommits (handleMedia 0 [255] exampleStateNoResponse).2 =
        (if 1600 ≤ exampleStateNoResponse.pendingSamples16k +
            (pcm8kTo16k (ulawFrameToPcm16Array [255])).length then 1 else 0) ∧
      (1600 ≤ exampleStateNoResponse.pendingSamples16k +
          (pcm8kTo16k (ulawFrameToPcm16Array [255])).length →
        (handleMedia 0 [255] exampleStateNoResponse).1.pendingSamples16k = 0) ∧
      (¬ 1600 ≤ exampleStateNoResponse.pendingSamples16k +
          (pcm8kTo16k (ulawFrameToPcm16Array [255])).length →
        (handleMedia 0 [255] exampleStateNoResponse).1.pendingSamples16k =
          exampleStateNoResponse.pendingSamples16k +
            (pcm8kTo16k (ulawFrameToPcm16Array [255])).length) ∧
      (OAIOut.responseCreate ∈ (handleMedia 0 [255] exampleStateNoResponse).2 →
        (bargeIn 0 exampleStateNoResponse).1.responseActive = false ∧
          1600 ≤ exampleStateNoResponse.pendingSamples16k +
            (pcm8kTo16k (ulawFrameToPcm16Array [255])).length) :=
  c4_commit_accumulator 0 [255] exampleStateNoResponse (by decide)

/-- Claim C6 (counterexample): at a concrete mid-call state the commit
crossing sets `responseActive` to true merely because a create-response
was sent — no response-created event was received — and `bargeIn` sets it
to false merely because a cancellation was sent — no completion event was
received.  So the flag is set by inference, contradicting the claim. -/
theorem c6_counterexample :
    exampleStateNoResponse.responseActive = false ∧
      (handleMedia 0 [255] exampleStateNoResponse).1.responseActive = true ∧
      OAIOut.responseCreate ∈ (handleMedia 0 [255] exampleStateNoResponse).2 ∧
      exampleStateActive.responseActive = true ∧
      (bargeIn 1000 exampleStateActive).1.responseActive = false ∧
      (bargeIn 1000 exampleStateActive).2 = [OAIOut.responseCancel] := by
  decide

/-- Claim C6 (amended): `responseActive` becomes true on a
response-created event or when a commit crossing sends create-response,
becomes false on a response-done event or when `bargeIn` sends a
cancellation, and is unchanged in every other case. -/
theorem c6_response_active_transitions (m : OAIEvent) (sE : SessionState)
    (now : ℤ) (payload : List ℕ) (s : SessionState) :
    ((handleOAIMessage m sE).responseActive =
        (if m.type = "response.done" then false
          else if m.type = "response.created" then true
          else sE.responseActive)) ∧
      ((bargeIn now s).2 ≠ [] → (bargeIn now s).1.responseActive = false) ∧
      ((bargeIn now s).2 = [] → (bargeIn now s).1.responseActive = s.responseActive) ∧
      (OAIOut.responseCreate ∈ (handleMedia now payload s).2 →
        (handleMedia now payload s).1.responseActive = true) ∧
      (OAIOut.responseCreate ∉ (handleMedia now payload s).2 →
        OAIOut.responseCancel ∉ (handleMedia now payload s).2 →
        (handleMedia now payload s).1.responseActive = s.responseActive) := by
  refine ⟨?_, ?_, ?_, ?_, ?_⟩
  · rcases m with ⟨ty, au, de⟩
    unfold handleOAIMessage
    dsimp only
    by_cases h1 : ty = "response.created" <;> by_cases h2 : ty = "response.done" <;>
      by_cases h3 : ty = "response.output_audio.delta" <;>
        by_cases h4 : ty = "output_audio_buffer.delta" <;>
          cases au <;> cases de <;> simp_all
  · rcases bargeIn_cases now s with ⟨_, _, heq⟩ | heq <;> rw [heq] <;> intro hne
    · rfl
    · simp at hne
  · rcases bargeIn_cases now s with ⟨_, _, heq⟩ | heq <;> rw [heq] <;> intro hne
    · simp at hne
    · rfl
  · unfold handleMedia
    by_cases hconn : s.oaiConn.isSome
    · rw [if_pos hconn]
      by_cases hth : MIN_SAMPLES_100MS ≤ (bargeIn now s).1.pendingSamples16k +
          (pcm8kTo16k (ulawFrameToPcm16Array payload)).length
      · rw [if_pos hth]
        by_cases hra : (bargeIn now s).1.responseActive = true
        · rw [if_pos hra]
          intro hmem
          exfalso
          rcases bargeIn_cases now s with ⟨_, _, heq⟩ | heq <;> rw [heq] at hmem <;>
            simp at hmem
        · rw [if_neg hra]
          intro _
          rfl
      · rw [if_neg hth]
        intro hmem
        exfalso
        rcases bargeIn_cases now s with ⟨_, _, heq⟩ | heq <;> rw [heq] at hmem <;>
          simp at hmem
    · rw [if_neg hconn]
      intro hmem
      simp at hmem
  · unfold handleMedia
    by_cases hconn : s.oaiConn.isSome
    · rw [if_pos hconn]
      by_cases hth : MIN_SAMPLES_100MS ≤ (bargeIn now s).1.pendingSamples16k +
          (pcm8kTo16k (ulawFrameToPcm16Array payload)).length
      · rw [if_pos hth]
        by_cases hra : (bargeIn now s).1.responseActive = true
        · rw [if_pos hra]
          intro _ hcanc
          rcases bargeIn_cases now s with ⟨_, _, heq⟩ | heq
          · exfalso
            rw [heq] at hcanc
            simp at hcanc
          · rw [heq] at hra ⊢
        · rw [if_neg hra]
          intro hmem _
          exfalso
          rcases bargeIn_cases now s with ⟨_, _, heq⟩ | heq <;> rw [heq] at hmem <;>
            simp at hmem
      · rw [if_neg hth]
        intro _ hcanc
        rcases bargeIn_cases now s with ⟨_, _, heq⟩ | heq
        · exfalso
          rw [heq] at hcanc
          simp at hcanc
        · rw [heq]
    · rw [if_neg hconn]
      intro _ _
      rfl

/-- Witness for `c6_response_active_transitions` at concrete inputs. -/
theorem c6_response_active_transitions_witness :
    ((handleOAIMessage ⟨"response.created", none, none⟩ exampleStateNoResponse).responseActive =
        (if ("response.created" : String) = "response.done" then false
          else if ("response.created" : String) = "response.created" then true
          else exampleStateNoResponse.responseActive)) ∧
      ((bargeIn 1000 exampleStateActive).2 ≠ [] →
        (bargeIn 1000 exampleStateActive).1.responseActive = false) ∧
      ((bargeIn 1000 exampleStateActive).2 = [] →
        (bargeIn 1000 exampleStateActive).1.responseActive =
          exampleStateActive.responseActive) ∧
      (OAIOut.responseCreate ∈ (handleMedia 1000 [255] exampleStateActive).2 →
        (handleMedia 1000 [255] exampleStateActive).1.responseActive = true) ∧
      (OAIOut.responseCreate ∉ (handleMedia 1000 [255] exampleStateActive).2 →
        OAIOut.responseCancel ∉ (handleMedia 1000 [255] exampleStateActive).2 →
        (handleMedia 1000 [255] exampleStateActive).1.responseActive =
          exampleStateActive.responseActive) :=
  c6_response_active_transitions ⟨"response.created", none, none⟩ exampleStateNoResponse
    1000 [255] exampleStateActive

/-- Draining lemma for the pacer: starting from a known stream id and a
queue `q`, running `q.length` ticks emits exactly the frames of `q`, in
order, and empties the queue without touching any other field. -/
theorem runTicks_drain (sid : String) :
    ∀ q (s : SessionState), s.streamSid = some sid → s.ttsQueue = q →
      runTicks q.length s =
        ({ s with ttsQueue := [] },
          q.map fun c => TwilioMedia.mk sid (pcm16ArrayToUlawFrame (pcm16kTo8k c))) := by
  intro q
  induction q with
  | nil =>
      intro s h1 h2
      simp only [List.length_nil, runTicks, List.map_nil]
      cases s
      simp_all
  | cons c rest ih =>
      intro s h1 h2
      have hp : pacerTick s =
          ({ s with ttsQueue := rest },
            some ⟨sid, pcm16ArrayToUlawFrame (pcm16kTo8k c)⟩) := by
        unfold pacerTick
        rw [h1, h2]
      have hrec := ih { s with ttsQueue := rest } h1 rfl
      simp only [List.length_cons, runTicks, hp, hrec, Option.toList, List.map_cons]
      simp

/-- Claim C7: with a known stream id, a burst of `N` queued chunks is
emitted one frame per tick, oldest first, over exactly `N` ticks; a
single tick dequeues exactly the oldest chunk; and a tick with an empty
queue or an unknown stream id changes nothing and emits nothing. -/
theorem c7_pacer_paces (s : SessionState) (sid : String) :
    (s.streamSid = some sid →
        runTicks s.ttsQueue.length s =
          ({ s with ttsQueue := [] },
            s.ttsQueue.map fun c =>
              TwilioMedia.mk sid (pcm16ArrayToUlawFrame (pcm16kTo8k c)))) ∧
      (s.streamSid = some sid → ∀ c rest, s.ttsQueue = c :: rest →
        pacerTick s = ({ s with ttsQueue := rest },
          some ⟨sid, pcm16ArrayToUlawFrame (pcm16kTo8k c)⟩)) ∧
      (s.ttsQueue = [] ∨ s.streamSid = none → pacerTick s = (s, none)) := by
  refine ⟨fun h1 => runTicks_drain sid s.ttsQueue s h1 rfl, fun h1 c rest h2 => ?_, ?_⟩
  · unfold pacerTick
    rw [h1, h2]
  · rintro (hq | hsid)
    · unfold pacerTick
      rw [hq]
      cases s.streamSid <;> rfl
    · unfold pacerTick
      rw [hsid]

/-- Witness for `c7_pacer_paces` at a concrete two-chunk queue. -/
theorem c7_pacer_paces_witness :
    (({ exampleStateNoResponse with ttsQueue := [[40, -40], [0, 0]] } :
          SessionState).streamSid = some "S1" →
        runTicks ([[(40 : ℤ), -40], [0, 0]] : List (List ℤ)).length
            { exampleStateNoResponse with ttsQueue := [[40, -40], [0, 0]] } =
          ({ exampleStateNoResponse with ttsQueue := ([] : List (List ℤ)) },
            ([[(40 : ℤ), -40], [0, 0]] : List (List ℤ)).map fun c =>
              TwilioMedia.mk "S1" (pcm16ArrayToUlawFrame (pcm16kTo8k c)))) ∧
      (({ exampleStateNoResponse with ttsQueue := [[40, -40], [0, 0]] } :
          SessionState).streamSid = some "S1" →
        ∀ c rest,
          ({ exampleStateNoResponse with ttsQueue := [[40, -40], [0, 0]] } :
            SessionState).ttsQueue = c :: rest →
          pacerTick { exampleStateNoResponse with ttsQueue := [[40, -40], [0, 0]] } =
            ({ exampleStateNoResponse with ttsQueue := rest },
              some ⟨"S1", pcm16ArrayToUlawFrame (pcm16kTo8k c)⟩)) ∧
      (({ exampleStateNoResponse with ttsQueue := [[40, -40], [0, 0]] } :
            SessionState).ttsQueue = [] ∨
          ({ exampleStateNoResponse with ttsQueue := [[40, -40], [0, 0]] } :
            SessionState).streamSid = none →
        pacerTick { exampleStateNoResponse with ttsQueue := [[40, -40], [0, 0]] } =
          ({ exampleStateNoResponse with ttsQueue := [[40, -40], [0, 0]] }, none)) :=
  c7_pacer_paces { exampleStateNoResponse with ttsQueue := [[40, -40], [0, 0]] } "S1"

/-- Claim C9: the agent event handler accepts both audio-delta schema
variants — type `response.output_audio.delta` with the chunk under
`audio`, and type `output_audio_buffer.delta` with the chunk under
`delta` — appending the carried chunk to the playback queue, and leaves
the queue unchanged on any event matching neither variant. -/
theorem c9_delta_variants (m : OAIEvent) (s : SessionState) :
    (m.type = "response.output_audio.delta" → ∀ chunk, m.audio = some chunk →
        (handleOAIMessage m s).ttsQueue = s.ttsQueue ++ [chunk]) ∧
      (m.type = "output_audio_buffer.delta" → ∀ chunk, m.delta = some chunk →
        (handleOAIMessage m s).ttsQueue = s.ttsQueue ++ [chunk]) ∧
      ((m.type ≠ "response.output_audio.delta" ∨ m.audio = none) →
        (m.type ≠ "output_audio_buffer.delta" ∨ m.delta = none) →
        (handleOAIMessage m s).ttsQueue = s.ttsQueue) := by
  rcases m with ⟨ty, au, de⟩
  unfold handleOAIMessage
  dsimp only
  have d1 : ("response.output_audio.delta" : String) ≠ "response.created" := by decide
  have d2 : ("response.output_audio.delta" : String) ≠ "response.done" := by decide
  have d3 : ("response.output_audio.delta" : String) ≠ "output_audio_buffer.delta" := by decide
  have d4 : ("output_audio_buffer.delta" : String) ≠ "response.created" := by decide
  have d5 : ("output_audio_buffer.delta" : String) ≠ "response.done" := by decide
  have d6 : ("output_audio_buffer.delta" : String) ≠ "response.output_audio.delta" := by decide
  refine ⟨fun h1 chunk hau => ?_, fun h2 chunk hde => ?_, fun hn1 hn2 => ?_⟩
  · subst h1
    rw [hau]
    simp [d1, d2, d3]
  · subst h2
    rw [hde]
    simp [d4, d5, d6]
  · by_cases h3 : ty = "response.output_audio.delta"
    · rcases hn1 with hn1 | hn1
      · exact absurd h3 hn1
      · subst h3
        rw [hn1]
        simp [d1, d2, d3]
    · by_cases h4 : ty = "output_audio_buffer.delta"
      · rcases hn2 with hn2 | hn2
        · exact absurd h4 hn2
        · subst h4
          rw [hn2]
          simp [d4, d5, h3]
      · by_cases h1 : ty = "response.created" <;> by_cases h2 : ty = "response.done" <;>
          simp [h1, h2, h3, h4]

/-- Witness for `c9_delta_variants` at a concrete delta event. -/
theorem c9_delta_variants_witness :
    ((OAIEvent.mk "output_audio_buffer.delta" none (some [9, -9])).type =
          "response.output_audio.delta" →
        ∀ chunk,
          (OAIEvent.mk "output_audio_buffer.delta" none (some [9, -9])).audio = some chunk →
          (handleOAIMessage (OAIEvent.mk "output_audio_buffer.delta" none (some [9, -9]))
            exampleStateNoResponse).ttsQueue =
            exampleStateNoResponse.ttsQueue ++ [chunk]) ∧
      ((OAIEvent.mk "output_audio_buffer.delta" none (some [9, -9])).type =
          "output_audio_buffer.delta" →
        ∀ chunk,
          (OAIEvent.mk "output_audio_buffer.delta" none (some [9, -9])).delta = some chunk →
          (handleOAIMessage (OAIEvent.mk "output_audio_buffer.delta" none (some [9, -9]))
            exampleStateNoResponse).ttsQueue =
            exampleStateNoResponse.ttsQueue ++ [chunk]) ∧
      (((OAIEvent.mk "output_audio_buffer.delta" none (some [9, -9])).type ≠
            "response.output_audio.delta" ∨
          (OAIEvent.mk "output_audio_buffer.delta" none (some [9, -9])).audio = none) →
        ((OAIEvent.mk "output_audio_buffer.delta" none (some [9, -9])).type ≠
            "output_audio_buffer.delta" ∨
          (OAIEvent.mk "output_audio_buffer.delta" none (some [9, -9])).delta = none) →
        (handleOAIMessage (OAIEvent.mk "output_audio_buffer.delta" none (some [9, -9]))
          exampleStateNoResponse).ttsQueue = exampleStateNoResponse.ttsQueue) :=
  c9_delta_variants (OAIEvent.mk "output_audio_buffer.delta" none (some [9, -9]))
    exampleStateNoResponse

/-- Witness for `c8_stop_teardown` at a concrete state whose agent
channel was never opened. -/
theorem c8_stop_teardown_witness :
    (handleStop { exampleStateNoResponse with oaiConn := none }).twilioConn =
        ChanState.closed ∧
      (handleStop { exampleStateNoResponse with oaiConn := none }).oaiConn ≠
        some ChanState.opened ∧
      (({ exampleStateNoResponse with oaiConn := none } : SessionState).oaiConn = none →
        (handleStop { exampleStateNoResponse with oaiConn := none }).oaiConn = none) ∧
      handleStop (handleStop { exampleStateNoResponse with oaiConn := none }) =
        handleStop { exampleStateNoResponse with oaiConn := none } ∧
      closeChan ChanState.closed = ChanState.closed :=
  c8_stop_teardown { exampleStateNoResponse with oaiConn := none }
